import Mathlib

/-!
Verification of the itinerary-and-route assembly pipeline of
`streamlit_app.py` (AI travel planner).

The embedding models Python values flowing through the pipeline as a
`Json` inductive (numbers as rationals), Python exceptions as
`Except String`, and the Streamlit session slots as a `SessionState`
record.  Network calls (`requests.get(url).json()`) are modelled as an
oracle `net : String → Except String Json` mapping the request URL to
the decoded reply (or a transport/decode failure).  The generative
model's reply is the raw `response.text` string, decoded by a faithful
model of `json.loads` (strict JSON; the float-only `NaN`/`Infinity`
extensions are outside the rational value model and are rejected, as no
pipeline behaviour in scope depends on them).
-/

/-- JSON values as produced by `json.loads`: numbers are modelled as
rationals, objects as insertion-ordered key/value lists with unique keys
(later duplicate keys overwrite in place, as in a Python dict). -/
inductive Json where
  | null
  | bool (b : Bool)
  | num (q : ℚ)
  | str (s : String)
  | arr (xs : List Json)
  | obj (fields : List (String × Json))

/-- The character `\x7b` (left curly brace). -/
def lcurly : Char := Char.ofNat 123

/-- The character `\x7d` (right curly brace). -/
def rcurly : Char := Char.ofNat 125

/-- Python dict assignment `d[k] = v`: replaces the value in place if the
key exists, otherwise appends at the end (insertion order preserved). -/
def dictInsert (fields : List (String × Json)) (k : String) (v : Json) :
    List (String × Json) :=
  if fields.any (fun kv => kv.1 = k) then
    fields.map (fun kv => if kv.1 = k then (k, v) else kv)
  else
    fields ++ [(k, v)]

/-- Python subscript `j[k]` with a string key: succeeds only on a dict
holding the key (`KeyError` otherwise, `TypeError` on non-dicts). -/
def subscript (j : Json) (k : String) : Except String Json :=
  match j with
  | .obj fields =>
    match fields.find? (fun kv => kv.1 = k) with
    | some kv => .ok kv.2
    | none => .error ("KeyError: " ++ k)
  | _ => .error "TypeError: value is not subscriptable by string"

/-- Python subscript `j[n]` with a non-negative integer index: indexes a
list or a string (`IndexError` when out of range); a dict keyed by an
integer raises `KeyError` (JSON object keys are strings); other values
raise `TypeError`. -/
def index (j : Json) (n : Nat) : Except String Json :=
  match j with
  | .arr xs =>
    match xs.get? n with
    | some v => .ok v
    | none => .error "IndexError: list index out of range"
  | .str s =>
    match s.toList.get? n with
    | some c => .ok (.str (String.mk [c]))
    | none => .error "IndexError: string index out of range"
  | .obj _ => .error "KeyError: integer key"
  | _ => .error "TypeError: value is not subscriptable"

/-- Python iteration `for x in j`: lists yield their elements, strings
their one-character substrings, dicts their keys in insertion order;
everything else raises `TypeError`. -/
def pyIter (j : Json) : Except String (List Json) :=
  match j with
  | .arr xs => .ok xs
  | .str s => .ok (s.toList.map (fun c => .str (String.mk [c])))
  | .obj fields => .ok (fields.map (fun kv => .str kv.1))
  | _ => .error "TypeError: value is not iterable"

/-- Python `d.get(k, default)`: `AttributeError` on non-dicts. -/
def dict_get (j : Json) (k : String) (default : Json) : Except String Json :=
  match j with
  | .obj fields =>
    match fields.find? (fun kv => kv.1 = k) with
    | some kv => .ok kv.2
    | none => .ok default
  | _ => .error "AttributeError: value has no method get"

/-- First-error list traversal: the semantics of a Python list
comprehension whose body may raise. -/
def mapE {α β : Type} (f : α → Except String β) : List α → Except String (List β)
  | [] => .ok []
  | x :: xs =>
    match f x with
    | .error e => .error e
    | .ok y =>
      match mapE f xs with
      | .error e => .error e
      | .ok ys => .ok (y :: ys)

/-! JSON decoding: a model of Python `json.loads`. -/

/-- Whitespace skipping between JSON tokens. -/
def skipWs : List Char → List Char
  | [] => []
  | c :: cs => if c = ' ' ∨ c = '\t' ∨ c = '\n' ∨ c = '\r' then skipWs cs else c :: cs

/-- Numeric value of a decimal digit character. -/
def digitVal (c : Char) : Nat := c.toNat - '0'.toNat

/-- Hexadecimal digit value, if any. -/
def hexVal (c : Char) : Option Nat :=
  if '0' ≤ c ∧ c ≤ '9' then some (c.toNat - '0'.toNat)
  else if 'a' ≤ c ∧ c ≤ 'f' then some (c.toNat - 'a'.toNat + 10)
  else if 'A' ≤ c ∧ c ≤ 'F' then some (c.toNat - 'A'.toNat + 10)
  else none

/-- Consume a maximal run of decimal digits, accumulating their value. -/
def readDigits (acc : Nat) : List Char → Nat × List Char
  | [] => (acc, [])
  | c :: cs =>
    if c.isDigit then readDigits (acc * 10 + digitVal c) cs else (acc, c :: cs)

/-- Consume a maximal run of decimal digits, accumulating value and count. -/
def readDigitsCnt (acc cnt : Nat) : List Char → Nat × Nat × List Char
  | [] => (acc, cnt, [])
  | c :: cs =>
    if c.isDigit then readDigitsCnt (acc * 10 + digitVal c) (cnt + 1) cs
    else (acc, cnt, c :: cs)

/-- Optional fractional part `.ddd` after the integer part `i`. -/
def parseFracPart (i : Nat) (cs : List Char) : Except String (ℚ × List Char) :=
  match cs with
  | '.' :: rest =>
    match rest with
    | c :: r =>
      if c.isDigit then
        let (f, k, r2) := readDigitsCnt (digitVal c) 1 r
        .ok ((i : ℚ) + (f : ℚ) / ((10 : ℚ) ^ k), r2)
      else .error "Expecting digit after decimal point"
    | [] => .error "Expecting digit after decimal point"
  | _ => .ok ((i : ℚ), cs)

/-- Optional exponent part `e±ddd` applied to the value `q`. -/
def parseExpPart (q : ℚ) (cs : List Char) : Except String (ℚ × List Char) :=
  match cs with
  | c :: rest =>
    if c = 'e' ∨ c = 'E' then
      let (epos, r1) :=
        match rest with
        | '+' :: r => (true, r)
        | '-' :: r => (false, r)
        | r => (true, r)
      match r1 with
      | d :: r2 =>
        if d.isDigit then
          let (ex, r3) := readDigits (digitVal d) r2
          .ok (if epos then q * (10 : ℚ) ^ ex else q / (10 : ℚ) ^ ex, r3)
        else .error "Expecting digit in exponent"
      | [] => .error "Expecting digit in exponent"
    else .ok (q, cs)
  | [] => .ok (q, cs)

/-- Fraction, exponent and sign applied around the integer part. -/
def finishNumber (neg : Bool) (i : Nat) (cs : List Char) :
    Except String (ℚ × List Char) :=
  match parseFracPart i cs with
  | .error e => .error e
  | .ok (q, r) =>
    match parseExpPart q r with
    | .error e => .error e
    | .ok (q2, r2) => .ok (if neg then -q2 else q2, r2)

/-- JSON number: optional minus, integer part without leading zeros,
optional fraction, optional exponent. -/
def parseNumber (cs : List Char) : Except String (ℚ × List Char) :=
  let (neg, cs1) :=
    match cs with
    | '-' :: r => (true, r)
    | _ => (false, cs)
  match cs1 with
  | [] => .error "Expecting value"
  | c :: r =>
    if c = '0' then finishNumber neg 0 r
    else if c.isDigit then
      let (i, r2) := readDigits (digitVal c) r
      finishNumber neg i r2
    else .error "Expecting value"

/-- Prepend a decoded character to a string-body parse result. -/
def pushChar (c : Char) :
    Except String (List Char × List Char) → Except String (List Char × List Char)
  | .error e => .error e
  | .ok (s, r) => .ok (c :: s, r)

/-- Body of a JSON string after the opening quote, handling the escape
sequences `json.loads` accepts (basic-plane `\uXXXX`; surrogate pairing
is irrelevant to the pipeline and not modelled). -/
def parseStrBody : List Char → Except String (List Char × List Char)
  | [] => .error "Unterminated string"
  | '"' :: cs => .ok ([], cs)
  | '\\' :: '"' :: cs => pushChar '"' (parseStrBody cs)
  | '\\' :: '\\' :: cs => pushChar '\\' (parseStrBody cs)
  | '\\' :: '/' :: cs => pushChar '/' (parseStrBody cs)
  | '\\' :: 'b' :: cs => pushChar (Char.ofNat 8) (parseStrBody cs)
  | '\\' :: 'f' :: cs => pushChar (Char.ofNat 12) (parseStrBody cs)
  | '\\' :: 'n' :: cs => pushChar '\n' (parseStrBody cs)
  | '\\' :: 'r' :: cs => pushChar '\r' (parseStrBody cs)
  | '\\' :: 't' :: cs => pushChar '\t' (parseStrBody cs)
  | '\\' :: 'u' :: a :: b :: c :: d :: cs =>
    (match hexVal a, hexVal b, hexVal c, hexVal d with
     | some ha, some hb, some hc, some hd =>
       pushChar (Char.ofNat (((ha * 16 + hb) * 16 + hc) * 16 + hd)) (parseStrBody cs)
     | _, _, _, _ => .error "Invalid unicode escape")
  | '\\' :: _ => .error "Invalid escape"
  | c :: cs => pushChar c (parseStrBody cs)

mutual

/-- One JSON value, fuel-indexed recursive descent. -/
def parseVal : Nat → List Char → Except String (Json × List Char)
  | 0, _ => .error "fuel exhausted"
  | fuel + 1, cs =>
    match skipWs cs with
    | [] => .error "Expecting value"
    | 'n' :: 'u' :: 'l' :: 'l' :: rest => .ok (.null, rest)
    | 't' :: 'r' :: 'u' :: 'e' :: rest => .ok (.bool true, rest)
    | 'f' :: 'a' :: 'l' :: 's' :: 'e' :: rest => .ok (.bool false, rest)
    | '"' :: rest =>
      (match parseStrBody rest with
       | .error e => .error e
       | .ok (s, r) => .ok (.str (String.mk s), r))
    | '[' :: rest =>
      (match skipWs rest with
       | ']' :: r => .ok (.arr [], r)
       | r => parseArrItems fuel r [])
    | c :: rest =>
      if c = lcurly then
        match skipWs rest with
        | [] => .error "Unterminated object"
        | d :: r =>
          if d = rcurly then .ok (.obj [], r)
          else parseObjItems fuel (d :: r) []
      else if c = '-' ∨ c.isDigit then
        match parseNumber (c :: rest) with
        | .error e => .error e
        | .ok (q, r) => .ok (.num q, r)
      else .error "Expecting value"

/-- Comma-separated array items after the opening bracket. -/
def parseArrItems : Nat → List Char → List Json → Except String (Json × List Char)
  | 0, _, _ => .error "fuel exhausted"
  | fuel + 1, cs, acc =>
    match parseVal fuel cs with
    | .error e => .error e
    | .ok (v, rest) =>
      match skipWs rest with
      | ',' :: r => parseArrItems fuel r (acc ++ [v])
      | ']' :: r => .ok (.arr (acc ++ [v]), r)
      | _ => .error "Expecting comma or close bracket"

/-- Comma-separated `"key": value` object members. -/
def parseObjItems : Nat → List Char → List (String × Json) →
    Except String (Json × List Char)
  | 0, _, _ => .error "fuel exhausted"
  | fuel + 1, cs, acc =>
    match skipWs cs with
    | '"' :: rest =>
      (match parseStrBody rest with
       | .error e => .error e
       | .ok (k, r1) =>
         match skipWs r1 with
         | ':' :: r2 =>
           (match parseVal fuel r2 with
            | .error e => .error e
            | .ok (v, r3) =>
              let acc2 := dictInsert acc (String.mk k) v
              match skipWs r3 with
              | ',' :: r4 => parseObjItems fuel r4 acc2
              | d :: r4 =>
                if d = rcurly then .ok (.obj acc2, r4)
                else .error "Expecting comma or close brace"
              | [] => .error "Expecting comma or close brace")
         | _ => .error "Expecting colon")
    | _ => .error "Expecting property name"

end

/-- Model of `json.loads`: decode one JSON value, allow surrounding
whitespace, reject trailing data.  The fuel `2 * length + 2` dominates
the recursion depth of any parse of the input. -/
def json_loads (s : String) : Except String Json :=
  match parseVal (2 * s.length + 2) s.toList with
  | .error e => .error e
  | .ok (v, rest) =>
    match skipWs rest with
    | [] => .ok v
    | _ => .error "Extra data"

/-! The application's helper functions and generate block
(`streamlit_app.py`). -/

/-- The autocomplete request URL built by `get_city_suggestions`. -/
def autocomplete_url (searchterm apiKey : String) : String :=
  "https://api.geoapify.com/v1/geocode/autocomplete?text=" ++ searchterm ++
    "&type=city&apiKey=" ++ apiKey

/-- Body of the `try` block of `get_city_suggestions`: decode the reply,
default `features` to the empty list, and build the
`(r[quote properties quote][quote formatted quote], r[quote properties quote])`
pairs; any step may fail. -/
def suggestions_body (net : String → Except String Json) (url : String) :
    Except String (List (Json × Json)) :=
  match net url with
  | .error e => .error e
  | .ok response =>
    match dict_get response "features" (Json.arr []) with
    | .error e => .error e
    | .ok feats =>
      match pyIter feats with
      | .error e => .error e
      | .ok featList =>
        mapE (fun r =>
          match subscript r "properties" with
          | .error e => .error e
          | .ok props =>
            match subscript props "formatted" with
            | .error e => .error e
            | .ok fmtd => .ok (fmtd, props)) featList

/-- Model of `get_city_suggestions`: inputs shorter than 3 characters
return `[]` before the URL is even built; otherwise the network is
consulted and any failure is swallowed into `[]`.  The boolean records
whether the network oracle was consulted (the source's early return sits
before the request). -/
def get_city_suggestions (searchterm : String)
    (net : String → Except String Json) (apiKey : String) :
    List (Json × Json) × Bool :=
  if searchterm = "" ∨ searchterm.length < 3 then ([], false)
  else
    match suggestions_body net (autocomplete_url searchterm apiKey) with
    | .ok l => (l, true)
    | .error _ => ([], true)

/-- The pipe-delimited waypoint encoding of `get_route`:
`"|".join([f"\x7bp[0]\x7d,\x7bp[1]\x7d" for p in waypoints])`, with
`fmt` standing for Python's string formatting of a value. -/
def point_str (fmt : Json → String) (waypoints : List (Json × Json)) : String :=
  String.intercalate "|" (waypoints.map (fun p => fmt p.1 ++ "," ++ fmt p.2))

/-- The routing request URL built by `get_route` (walking mode). -/
def route_url (fmt : Json → String) (apiKey : String)
    (waypoints : List (Json × Json)) : String :=
  "https://api.geoapify.com/v1/routing?waypoints=" ++ point_str fmt waypoints ++
    "&mode=walk&apiKey=" ++ apiKey

/-- Model of `get_route`: request the walking route for the waypoint
list and return `res[quote features quote][0][quote geometry quote][quote coordinates quote][0]`.
There is no exception handling here: any failure propagates to the caller. -/
def get_route (fmt : Json → String) (net : String → Except String Json)
    (apiKey : String) (waypoints : List (Json × Json)) : Except String Json :=
  match net (route_url fmt apiKey waypoints) with
  | .error e => .error e
  | .ok res =>
    match subscript res "features" with
    | .error e => .error e
    | .ok feats =>
      match index feats 0 with
      | .error e => .error e
      | .ok f0 =>
        match subscript f0 "geometry" with
        | .error e => .error e
        | .ok geom =>
          match subscript geom "coordinates" with
          | .error e => .error e
          | .ok coords => index coords 0

/-- One waypoint of the comprehension
`[[p[quote lat quote], p[quote lon quote]] for p in places]`. -/
def place_point (p : Json) : Except String (Json × Json) :=
  match subscript p "lat" with
  | .error e => .error e
  | .ok la =>
    match subscript p "lon" with
    | .error e => .error e
    | .ok lo => .ok (la, lo)

/-- The waypoint list of the generate block:
`[[lat, lon]] + [[p[quote lat quote], p[quote lon quote]] for p in places]`
(city center first, then each suggested place). -/
def route_points (lat lon : Json) (places : Json) :
    Except String (List (Json × Json)) :=
  match pyIter places with
  | .error e => .error e
  | .ok elems =>
    match mapE place_point elems with
    | .error e => .error e
    | .ok pts => .ok ((lat, lon) :: pts)

/-- The Streamlit session slots the generate block writes
(`itinerary`, `route`, `city_center`, `city_name`), all initially unset. -/
structure SessionState where
  itinerary : Option Json
  route : Option Json
  city_center : Option (Json × Json)
  city_name : Option String

/-- Session state at app start: every slot unset. -/
def initState : SessionState := ⟨none, none, none, none⟩

/-- Body of the `try` block of the generate section, up to (and
excluding) the session-state assignments: decode the model reply with
`json.loads`, build the waypoint list, fetch the route.  Returns the
parsed `places` value and the route geometry. -/
def run_body (fmt : Json → String) (net : String → Except String Json)
    (apiKey : String) (lat lon : Json) (responseText : String) :
    Except String (Json × Json) :=
  match json_loads responseText with
  | .error e => .error e
  | .ok places =>
    match route_points lat lon places with
    | .error e => .error e
    | .ok pts =>
      match get_route fmt net apiKey pts with
      | .error e => .error e
      | .ok geom => .ok (places, geom)

/-- The whole generate block: on success all four session slots are
overwritten with the new run's values and no message is shown; on any
exception the state is left as it was and `st.error` shows one message.
The second component is the error message surfaced to the user, if any. -/
def generate_run (fmt : Json → String) (net : String → Except String Json)
    (apiKey : String) (lat lon : Json) (city_name : String)
    (responseText : String) (s : SessionState) : SessionState × Option String :=
  match run_body fmt net apiKey lat lon responseText with
  | .ok pg =>
    (⟨some pg.1, some pg.2, some (lat, lon), some city_name⟩, none)
  | .error e => (s, some ("Error generating itinerary: " ++ e))

/-- One pair of the display block's comprehension: `[p[1], p[0]]`. -/
def swap_point (p : Json) : Except String (Json × Json) :=
  match index p 1 with
  | .error e => .error e
  | .ok a =>
    match index p 0 with
    | .error e => .error e
    | .ok b => .ok (a, b)

/-- The display block's coordinate swap:
`[[p[1], p[0]] for p in st.session_state.route]` (provider (lon, lat)
to Folium (lat, lon)). -/
def clean_route (route : Json) : Except String (List (Json × Json)) :=
  match pyIter route with
  | .error e => .error e
  | .ok elems => mapE swap_point elems

/-- Routing-provider reply with the given list of geometry segments,
shaped as `get_route` expects: one feature whose
`geometry.coordinates` is `segs`. -/
def mkRouterReply (segs : List Json) : Json :=
  Json.obj [("features", Json.arr
    [Json.obj [("geometry", Json.obj [("coordinates", Json.arr segs)])]])]

/-- Network oracle answering every request with the same reply. -/
def constNet (j : Json) : String → Except String Json := fun _ => .ok j

/-! Concrete data used to exercise the pipeline. -/

/-- A routing geometry as the provider sends it: pairs in (lon, lat)
order, here the two points (48.8584 N, 2.2945 E) and (48.86 N, 2.30 E). -/
def geomLonLat : Json :=
  Json.arr [Json.arr [Json.num 2.2945, Json.num 48.8584],
            Json.arr [Json.num 2.30, Json.num 48.86]]

/-- The same geometry with every pair swapped into (lat, lon) order. -/
def geomLatLon : Json :=
  Json.arr [Json.arr [Json.num 48.8584, Json.num 2.2945],
            Json.arr [Json.num 48.86, Json.num 2.30]]

/-- Network oracle on which every request fails (transport error). -/
def errNet : String → Except String Json := fun _ => .error "boom"

/-- A generator reply holding one well-formed point of interest. -/
def poiText : String :=
  "[\x7b\"name\": \"Louvre\", \"lat\": 48.8606, \"lon\": 2.3376\x7d]"

/-- A generator reply holding one point of interest whose latitude 200
is outside [-90, 90]. -/
def overText : String :=
  "[\x7b\"name\": \"X\", \"lat\": 200, \"lon\": 0\x7d]"

/-- The successful pipeline run used against claim C1: generator returns
an empty list, router replies with `geomLonLat` as its first geometry
segment. -/
def c1run : SessionState × Option String :=
  generate_run (fun _ => "") (constNet (mkRouterReply [geomLonLat])) "k"
    (Json.num 48.8566) (Json.num 2.3522) "Paris" "[]" initState

/-! Helper lemmas. -/

/-- A comprehension whose body succeeds pointwise returns the mapped list. -/
theorem mapE_congr_ok {α β : Type} (f : α → Except String β) (g : α → β)
    (l : List α) (h : ∀ x ∈ l, f x = .ok (g x)) : mapE f l = .ok (l.map g) := by
  induction l with
  | nil => rfl
  | cons x xs ih =>
    simp only [mapE, h x (List.mem_cons_self x xs),
      ih (fun y hy => h y (List.mem_cons_of_mem x hy)), List.map_cons]

/-- A successful comprehension preserves the length of its input. -/
theorem mapE_length {α β : Type} (f : α → Except String β)
    (l : List α) (res : List β) (h : mapE f l = .ok res) :
    res.length = l.length := by
  induction l generalizing res with
  | nil =>
    simp only [mapE] at h
    cases h
    rfl
  | cons x xs ih =>
    simp only [mapE] at h
    cases hfx : f x with
    | error e => rw [hfx] at h; cases h
    | ok y =>
      rw [hfx] at h
      cases hm : mapE f xs with
      | error e => rw [hm] at h; cases h
      | ok ys =>
        rw [hm] at h
        cases h
        simp [ih ys hm]

/-- The display swap on a stored geometry whose entries are two-element
pairs reverses each pair. -/
theorem mapE_swap_point (ps : List (Json × Json)) :
    mapE swap_point (ps.map fun p => Json.arr [p.1, p.2])
      = .ok (ps.map fun p => (p.2, p.1)) := by
  induction ps with
  | nil => rfl
  | cons p rest ih =>
    simp only [List.map_cons, mapE,
      show swap_point (Json.arr [p.1, p.2]) = .ok (p.2, p.1) from rfl, ih]

/-- Specialisation of the display swap to `clean_route`. -/
theorem clean_route_swaps (ps : List (Json × Json)) :
    clean_route (Json.arr (ps.map fun p => Json.arr [p.1, p.2]))
      = .ok (ps.map fun p => (p.2, p.1)) := by
  simp only [clean_route, pyIter, mapE_swap_point]

/-! Claim theorems. -/

/-- Claim C1, counterexample: in a successful pipeline run whose routing
provider replies with the coordinate sequence
[[2.2945, 48.8584], [2.30, 48.86]], the session route slot stores that
sequence unchanged — still in the provider's (lon, lat) order — and not
the swapped (lat, lon) sequence the claim requires. -/
theorem C1_route_slot_not_swapped :
    c1run.2 = none
    ∧ c1run.1.route = some geomLonLat
    ∧ geomLonLat ≠ geomLatLon := by
  refine ⟨rfl, rfl, ?_⟩
  simp only [geomLonLat, geomLatLon, ne_eq, Json.arr.injEq, List.cons.injEq,
    Json.num.injEq, and_true]
  norm_num

/-- Claim C1, amended: the route slot stores the router reply's geometry
verbatim, in the provider's (lon, lat) order; the (lat, lon) swap is
performed by the display block, whose `clean_route` reverses every
stored pair before the polyline is drawn. -/
theorem C1_route_stored_raw_display_swaps (fmt : Json → String)
    (net : String → Except String Json) (key : String) (lat lon : Json)
    (cn text : String) (s : SessionState) (places geom : Json)
    (h : run_body fmt net key lat lon text = .ok (places, geom)) :
    (generate_run fmt net key lat lon cn text s).1.route = some geom
    ∧ ∀ ps : List (Json × Json),
        clean_route (Json.arr (ps.map fun p => Json.arr [p.1, p.2]))
          = .ok (ps.map fun p => (p.2, p.1)) := by
  constructor
  · simp only [generate_run, h]
  · exact clean_route_swaps

/-- Claim C1, witness: on the concrete C1 run the stored route is the
raw provider geometry, and the display swap turns it into the (lat, lon)
sequence [[48.8584, 2.2945], [48.86, 2.30]]. -/
theorem C1_route_stored_raw_witness :
    (generate_run (fun _ => "") (constNet (mkRouterReply [geomLonLat])) "k"
        (Json.num 48.8566) (Json.num 2.3522) "Paris" "[]" initState).1.route
      = some geomLonLat
    ∧ clean_route geomLonLat
        = .ok [(Json.num 48.8584, Json.num 2.2945),
               (Json.num 48.86, Json.num 2.30)] :=
  ⟨(C1_route_stored_raw_display_swaps (fun _ => "")
      (constNet (mkRouterReply [geomLonLat])) "k"
      (Json.num 48.8566) (Json.num 2.3522) "Paris" "[]" initState
      (Json.arr []) geomLonLat rfl).1,
   (C1_route_stored_raw_display_swaps (fun _ => "")
      (constNet (mkRouterReply [geomLonLat])) "k"
      (Json.num 48.8566) (Json.num 2.3522) "Paris" "[]" initState
      (Json.arr []) geomLonLat rfl).2
     [(Json.num 2.2945, Json.num 48.8584), (Json.num 2.30, Json.num 48.86)]⟩

/-- Claim C2, counterexample: with a generator reply holding one valid
point of interest and a router call that fails, the run does not
complete with stored stops and an empty route — instead no session slot
is written (the itinerary slot stays unset) and an error message, not a
warning, is emitted. -/
theorem C2_router_failure_not_soft :
    (generate_run (fun _ => "") errNet "k" (Json.num 48.8566)
        (Json.num 2.3522) "Paris" poiText initState).1.itinerary = none
    ∧ (generate_run (fun _ => "") errNet "k" (Json.num 48.8566)
        (Json.num 2.3522) "Paris" poiText initState).2
      = some "Error generating itinerary: boom" :=
  ⟨rfl, rfl⟩

/-- Claim C2, amended: a router failure is handled like every other
failure of the generate block: the single `except` clause fires, one
error message is emitted, and the session state is left exactly as it
was — there is no degraded completion with stops and an empty route, and
no warning distinct from an error. -/
theorem C2_router_failure_aborts_run (fmt : Json → String)
    (net : String → Except String Json) (key : String) (lat lon : Json)
    (cn text : String) (s : SessionState) (places : Json)
    (pts : List (Json × Json)) (e : String)
    (hp : json_loads text = .ok places)
    (hw : route_points lat lon places = .ok pts)
    (hr : net (route_url fmt key pts) = .error e) :
    generate_run fmt net key lat lon cn text s
      = (s, some ("Error generating itinerary: " ++ e)) := by
  simp only [generate_run, run_body, get_route, hp, hw, hr]

/-- Claim C2, witness: concrete router-failure run, showing the state is
returned untouched together with the single error message. -/
theorem C2_router_failure_aborts_run_witness :
    generate_run (fun _ => "") errNet "k" (Json.num 1) (Json.num 2) "P"
        "[]" initState
      = (initState, some "Error generating itinerary: boom") :=
  C2_router_failure_aborts_run (fun _ => "") errNet "k" (Json.num 1)
    (Json.num 2) "P" "[]" initState (Json.arr [])
    [(Json.num 1, Json.num 2)] "boom" rfl rfl rfl

/-- Claim C3, counterexample: a generator suggestion with latitude 200,
far outside [-90, 90], is not excluded: the run succeeds and the
itinerary slot stores the out-of-range point of interest verbatim. -/
theorem C3_out_of_range_poi_stored :
    (generate_run (fun _ => "") (constNet (mkRouterReply [Json.arr []])) "k"
        (Json.num 1) (Json.num 2) "P" overText initState).1.itinerary
      = some (Json.arr [Json.obj [("name", Json.str "X"),
                                  ("lat", Json.num 200),
                                  ("lon", Json.num 0)]])
    ∧ ¬ ((200 : ℚ) ≤ 90)
    ∧ (generate_run (fun _ => "") (constNet (mkRouterReply [Json.arr []])) "k"
        (Json.num 1) (Json.num 2) "P" overText initState).2 = none :=
  ⟨rfl, by norm_num, rfl⟩

/-- Claim C3, amended: no coordinate-range or name validation is applied
anywhere in the pipeline: whatever list the generator reply decodes to
is stored verbatim in the itinerary slot whenever the waypoints can be
extracted and the router call succeeds — points with out-of-range
coordinates included, and a zero-length list does not end the run in a
failure. -/
theorem C3_no_validation_of_generator_output (fmt : Json → String)
    (net : String → Except String Json) (key : String) (lat lon : Json)
    (cn text : String) (s : SessionState) (l : List Json)
    (pts : List (Json × Json)) (geom : Json)
    (hp : json_loads text = .ok (Json.arr l))
    (hm : mapE place_point l = .ok pts)
    (hr : get_route fmt net key ((lat, lon) :: pts) = .ok geom) :
    (generate_run fmt net key lat lon cn text s).1.itinerary
      = some (Json.arr l)
    ∧ (generate_run fmt net key lat lon cn text s).2 = none := by
  constructor <;>
    simp only [generate_run, run_body, route_points, pyIter, hp, hm, hr]

/-- Claim C3, witness: the amended statement applied to the concrete
out-of-range suggestion of latitude 200, which is stored unfiltered. -/
theorem C3_no_validation_witness :
    (generate_run (fun _ => "") (constNet (mkRouterReply [Json.arr []])) "k"
        (Json.num 1) (Json.num 2) "P" overText initState).1.itinerary
      = some (Json.arr [Json.obj [("name", Json.str "X"),
                                  ("lat", Json.num 200),
                                  ("lon", Json.num 0)]]) :=
  (C3_no_validation_of_generator_output (fun _ => "")
    (constNet (mkRouterReply [Json.arr []])) "k" (Json.num 1) (Json.num 2)
    "P" overText initState
    [Json.obj [("name", Json.str "X"), ("lat", Json.num 200),
               ("lon", Json.num 0)]]
    [(Json.num 200, Json.num 0)] (Json.arr []) rfl rfl rfl).1

/-- Claim C4: whenever a pipeline run fails — i.e. the generate block
surfaces an error message — the session state is returned exactly as it
was: itinerary, route, city center and city name slots are all
untouched, with no partial overwrite.  (In the source, all four
assignments sit after every fallible step of the `try` block, so an
exception always fires before any slot is written.) -/
theorem C4_failed_run_preserves_state (fmt : Json → String)
    (net : String → Except String Json) (key : String) (lat lon : Json)
    (cn text : String) (s : SessionState)
    (h : (generate_run fmt net key lat lon cn text s).2.isSome = true) :
    (generate_run fmt net key lat lon cn text s).1 = s := by
  unfold generate_run at h ⊢
  cases hb : run_body fmt net key lat lon text with
  | ok pg => rw [hb] at h; simp at h
  | error e => rfl

/-- Claim C4, witness: a run whose generator reply is not JSON fails and
leaves a previously populated session state byte-for-byte unchanged. -/
theorem C4_failed_run_preserves_state_witness :
    (generate_run (fun _ => "") errNet "k" (Json.num 1) (Json.num 2) "P"
        "not json"
        ⟨some (Json.arr []), some geomLonLat,
         some (Json.num 3, Json.num 4), some "Old"⟩).1
      = ⟨some (Json.arr []), some geomLonLat,
         some (Json.num 3, Json.num 4), some "Old"⟩ :=
  C4_failed_run_preserves_state (fun _ => "") errNet "k" (Json.num 1)
    (Json.num 2) "P" "not json"
    ⟨some (Json.arr []), some geomLonLat,
     some (Json.num 3, Json.num 4), some "Old"⟩ rfl

/-- Claim C5, counterexample: a generator reply with zero points of
interest is not rejected: the run proceeds to the routing call (which
here succeeds) and completes, storing a trip result with an empty stops
list — no hard failure, no abort before routing, and a trip result is
stored. -/
theorem C5_zero_stops_accepted :
    (generate_run (fun _ => "") (constNet (mkRouterReply [Json.arr []])) "k"
        (Json.num 1) (Json.num 2) "P" "[]" initState).2 = none
    ∧ (generate_run (fun _ => "") (constNet (mkRouterReply [Json.arr []])) "k"
        (Json.num 1) (Json.num 2) "P" "[]" initState).1.itinerary
      = some (Json.arr []) :=
  ⟨rfl, rfl⟩

/-- Claim C5, amended: on a successful run the stored stops sequence is
exactly the decoded generator list — its length equals the number of
decoded suggestions with no 1–3 bound enforced — and the waypoint list
sent to the router holds one waypoint per suggestion plus the leading
city center; a zero-suggestion reply is not aborted before routing. -/
theorem C5_stops_equal_parsed_list (fmt : Json → String)
    (net : String → Except String Json) (key : String) (lat lon : Json)
    (cn text : String) (s : SessionState) (l : List Json)
    (pts : List (Json × Json)) (geom : Json)
    (hp : json_loads text = .ok (Json.arr l))
    (hm : mapE place_point l = .ok pts)
    (hr : get_route fmt net key ((lat, lon) :: pts) = .ok geom) :
    (generate_run fmt net key lat lon cn text s).1.itinerary
      = some (Json.arr l)
    ∧ pts.length = l.length
    ∧ ((lat, lon) :: pts).length = l.length + 1 := by
  refine ⟨?_, mapE_length place_point l pts hm, ?_⟩
  · simp only [generate_run, run_body, route_points, pyIter, hp, hm, hr]
  · simp [mapE_length place_point l pts hm]

/-- Claim C5, witness: the amended statement applied to the concrete
zero-suggestion run, whose stored stops list is empty. -/
theorem C5_stops_equal_parsed_list_witness :
    (generate_run (fun _ => "") (constNet (mkRouterReply [Json.arr []])) "k"
        (Json.num 1) (Json.num 2) "P" "[]" initState).1.itinerary
      = some (Json.arr []) :=
  (C5_stops_equal_parsed_list (fun _ => "")
    (constNet (mkRouterReply [Json.arr []])) "k" (Json.num 1) (Json.num 2)
    "P" "[]" initState [] [] (Json.arr []) rfl rfl rfl).1

/-- Claim C6: a search string shorter than 3 characters makes
`get_city_suggestions` return the empty list at once, before the request
URL is even built — the network-consulted flag is `false` for every
network oracle. -/
theorem C6_short_input_no_lookup (s : String)
    (net : String → Except String Json) (key : String)
    (h : s.length < 3) :
    get_city_suggestions s net key = ([], false) := by
  unfold get_city_suggestions
  rw [if_pos (Or.inr h)]

/-- Claim C6, witness: the two-character input "Lo" returns no
candidates and performs no network call, even on an oracle that would
fail every request. -/
theorem C6_short_input_no_lookup_witness :
    get_city_suggestions "Lo" errNet "k" = ([], false) :=
  C6_short_input_no_lookup "Lo" errNet "k" (by decide)

/-- Claim C7: whenever the body of `get_city_suggestions` fails — a
transport error from the oracle, a reply without the expected shape, a
feature without `properties` or `formatted` — the function returns the
empty list; being a total function of its inputs, it surfaces no
exception to its caller. -/
theorem C7_lookup_failure_swallowed (s : String)
    (net : String → Except String Json) (key : String)
    (h : ∃ e, suggestions_body net (autocomplete_url s key) = .error e) :
    (get_city_suggestions s net key).1 = [] := by
  obtain ⟨e, he⟩ := h
  unfold get_city_suggestions
  split
  · rfl
  · rw [he]

/-- Claim C7, witness: a transport failure on the lookup for "London"
yields the empty candidate list. -/
theorem C7_lookup_failure_swallowed_witness :
    (get_city_suggestions "London" errNet "k").1 = [] :=
  C7_lookup_failure_swallowed "London" errNet "k" ⟨"boom", rfl⟩

/-- Claim C8: (i) the waypoint list of the generate block is the city
center followed by the generator's points in generator order; (ii) the
routing request URL encodes the waypoints as a pipe-delimited list of
`lat,lon` pairs in that order with walking mode; (iii) the routing step
consults the network only at that URL — two oracles agreeing there give
identical `get_route` results. -/
theorem C8_waypoints_center_first_walk_mode :
    (∀ (lat lon : Json) (l : List Json) (pts : List (Json × Json)),
        mapE place_point l = .ok pts →
        route_points lat lon (Json.arr l) = .ok ((lat, lon) :: pts))
    ∧ (∀ (fmt : Json → String) (key : String) (wps : List (Json × Json)),
        route_url fmt key wps
          = "https://api.geoapify.com/v1/routing?waypoints=" ++
            String.intercalate "|"
              (wps.map fun p => fmt p.1 ++ "," ++ fmt p.2) ++
            "&mode=walk&apiKey=" ++ key)
    ∧ (∀ (fmt : Json → String) (key : String) (wps : List (Json × Json))
        (net1 net2 : String → Except String Json),
        net1 (route_url fmt key wps) = net2 (route_url fmt key wps) →
        get_route fmt net1 key wps = get_route fmt net2 key wps) := by
  refine ⟨?_, ?_, ?_⟩
  · intro lat lon l pts hm
    simp only [route_points, pyIter, hm]
  · intro fmt key wps
    rfl
  · intro fmt key wps net1 net2 h
    unfold get_route
    rw [h]

/-- Claim C8, witness: with the city center (1, 2) and one generated
place at (3, 4), the waypoint list is center first then the place, and
its encoding under decimal formatting is `1,2|3,4` inside a walking-mode
URL. -/
theorem C8_waypoints_center_first_witness :
    route_points (Json.num 1) (Json.num 2)
        (Json.arr [Json.obj [("name", Json.str "A"), ("lat", Json.num 3),
                             ("lon", Json.num 4)]])
      = .ok [(Json.num 1, Json.num 2), (Json.num 3, Json.num 4)]
    ∧ route_url (fun j => match j with
          | .num q => toString q.num
          | _ => "?") "k"
        [(Json.num 1, Json.num 2), (Json.num 3, Json.num 4)]
      = "https://api.geoapify.com/v1/routing?waypoints=1,2|3,4&mode=walk&apiKey=k" :=
  ⟨C8_waypoints_center_first_walk_mode.1 (Json.num 1) (Json.num 2)
      [Json.obj [("name", Json.str "A"), ("lat", Json.num 3),
                 ("lon", Json.num 4)]]
      [(Json.num 3, Json.num 4)] rfl,
   by rw [C8_waypoints_center_first_walk_mode.2.1]; rfl⟩

/-- Claim C9: the generate block uses the generative model's reply text
only through `json_loads`, a strict structured-data decode that yields
either an inert value or a parse error — two reply texts with the same
decode drive the whole run, state included, to the same outcome, so the
reply is never interpreted beyond that decode (in particular never
executed as code). -/
theorem C9_reply_used_only_as_data (fmt : Json → String)
    (net : String → Except String Json) (key : String) (lat lon : Json)
    (cn : String) (s : SessionState) (t1 t2 : String)
    (h : json_loads t1 = json_loads t2) :
    generate_run fmt net key lat lon cn t1 s
      = generate_run fmt net key lat lon cn t2 s := by
  unfold generate_run run_body
  rw [h]

/-- Claim C9, witness: the texts `[1, 2]` and ` [ 1 , 2 ] ` decode to
the same value and produce identical runs. -/
theorem C9_reply_used_only_as_data_witness :
    generate_run (fun _ => "") (constNet (mkRouterReply [Json.arr []])) "k"
        (Json.num 1) (Json.num 2) "P" "[1, 2]" initState
      = generate_run (fun _ => "") (constNet (mkRouterReply [Json.arr []])) "k"
        (Json.num 1) (Json.num 2) "P" " [ 1 , 2 ] " initState :=
  C9_reply_used_only_as_data (fun _ => "")
    (constNet (mkRouterReply [Json.arr []])) "k" (Json.num 1) (Json.num 2)
    "P" initState "[1, 2]" " [ 1 , 2 ] " rfl

/-- Claim C10: `get_route` returns exactly the first sub-sequence of the
reply's geometry coordinates — all later segments and later features are
discarded — and a reply with an empty feature list, or without the
`features`, `geometry` or `coordinates` keys, makes it raise (an error
that propagates to the caller) instead of returning an empty geometry. -/
theorem C10_first_segment_or_raise (fmt : Json → String) (key : String)
    (wps : List (Json × Json)) (net : String → Except String Json) :
    (∀ (g0 : Json) (rest extra : List Json),
        net (route_url fmt key wps)
          = .ok (Json.obj [("features", Json.arr
              (Json.obj [("geometry", Json.obj
                [("coordinates", Json.arr (g0 :: rest))])] :: extra))]) →
        get_route fmt net key wps = .ok g0)
    ∧ (net (route_url fmt key wps) = .ok (Json.obj [("features", Json.arr [])])
        → ∃ e, get_route fmt net key wps = .error e)
    ∧ (net (route_url fmt key wps) = .ok (Json.obj [])
        → ∃ e, get_route fmt net key wps = .error e)
    ∧ (∀ extra : List Json,
        net (route_url fmt key wps)
          = .ok (Json.obj [("features", Json.arr (Json.obj [] :: extra))]) →
        ∃ e, get_route fmt net key wps = .error e)
    ∧ (∀ extra : List Json,
        net (route_url fmt key wps)
          = .ok (Json.obj [("features", Json.arr
              (Json.obj [("geometry", Json.obj [])] :: extra))]) →
        ∃ e, get_route fmt net key wps = .error e) := by
  refine ⟨?_, ?_, ?_, ?_, ?_⟩
  · intro g0 rest extra h
    unfold get_route
    rw [h]
    rfl
  · intro h
    unfold get_route
    rw [h]
    exact ⟨_, rfl⟩
  · intro h
    unfold get_route
    rw [h]
    exact ⟨_, rfl⟩
  · intro extra h
    unfold get_route
    rw [h]
    exact ⟨_, rfl⟩
  · intro extra h
    unfold get_route
    rw [h]
    exact ⟨_, rfl⟩

/-- Claim C10, witness: a two-segment, trailing-feature reply yields
exactly the first segment. -/
theorem C10_first_segment_witness :
    get_route (fun _ => "")
        (constNet (Json.obj [("features", Json.arr
          [Json.obj [("geometry", Json.obj
            [("coordinates", Json.arr [geomLonLat, Json.arr []])])],
           Json.null])]))
        "k" [(Json.num 1, Json.num 2)]
      = .ok geomLonLat :=
  (C10_first_segment_or_raise (fun _ => "") "k" [(Json.num 1, Json.num 2)]
      (constNet (Json.obj [("features", Json.arr
        [Json.obj [("geometry", Json.obj
          [("coordinates", Json.arr [geomLonLat, Json.arr []])])],
         Json.null])]))).1
    geomLonLat [Json.arr []] [Json.null] rfl
